import Mathlib

/-!
Shallow embedding of `src/compress.js` from bandwidth-hero-vercel.

The file models the pure decision logic of the compression module: a sharp
pipeline is represented as a list of queued operations plus the pending
output-format settings; `compress` is modelled as a function of the image
metadata, the request parameters and the results of the (at most two)
encode attempts, returning the list of pipelines handed to the encoder and
the final outcome (image sent, or redirect to the origin).
-/

/-- Output formats produced by compress.js (jpeg, avif or webp). -/
inductive OutputFormat
  | jpeg
  | avif
  | webp
deriving DecidableEq, Repr

/-- One operation queued on a sharp pipeline by compress.js.
`sharpenSigmaOnly` is the one-argument `.sharpen(sigma)` call made inside
`applyArtifactReduction`; `sharpenFull` is the three-argument
`.sharpen(sigma, flat, jagged)` call made with `sharpenParams`. -/
inductive Op
  | grayscale
  | modulate (saturation : ℚ)
  | blur (radius : ℚ)
  | sharpenSigmaOnly (sigma : ℚ)
  | sharpenFull (sigma flat jagged : ℚ)
  | gamma
  | resize (width height : Nat) (fit : String)
deriving DecidableEq, Repr

/-- The option object passed to `.toFormat`; fields the code leaves
`undefined` are `none`. -/
structure FormatOpts where
  quality : Option Nat
  alphaQuality : Option Nat
  smartSubsample : Option Bool
  chromaSubsampling : Option String
  tileRows : Option Nat
  tileCols : Option Nat
  minQuantizer : Option Nat
  maxQuantizer : Option Nat
  effort : Option Nat
  loop : Option Nat
deriving DecidableEq, Repr

/-- A sharp pipeline: the `animated` constructor flag, the queued
operations in order, and the pending output format with its options
(the latest `.toFormat` call wins). -/
structure SharpInstance where
  animated : Bool
  ops : List Op
  format : Option (OutputFormat × FormatOpts)
deriving DecidableEq, Repr

/-- The fixed secondary sharpening parameters (`sharpenParams` constant). -/
structure SharpenParams where
  sigma : ℚ
  flat : ℚ
  jagged : ℚ
deriving DecidableEq, Repr

/-- `const sharpenParams = { sigma: 1.0, flat: 1.0, jagged: 0.5 }`. -/
def sharpenParams : SharpenParams := ⟨1.0, 1.0, 0.5⟩

/-- `const MAX_HEIF_DIMENSION = 16384`. -/
def MAX_HEIF_DIMENSION : Nat := 16384

/-- Result of `optimizeAvifParams`. -/
structure AvifParams where
  tileRows : Nat
  tileCols : Nat
  minQuantizer : Nat
  maxQuantizer : Nat
  effort : Nat
deriving DecidableEq, Repr

/-- `optimizeAvifParams(width, height)` from compress.js. -/
def optimizeAvifParams (width height : Nat) : AvifParams :=
  let largeImageThreshold := 2000
  let mediumImageThreshold := 1000
  if width > largeImageThreshold ∨ height > largeImageThreshold then
    ⟨4, 4, 30, 50, 3⟩
  else if width > mediumImageThreshold ∨ height > mediumImageThreshold then
    ⟨2, 2, 28, 48, 4⟩
  else
    ⟨1, 1, 26, 48, 4⟩

/-- One row of the artifact-reduction settings used in
`applyArtifactReduction` (the `settings.large/medium/small` objects and
the inline default). -/
structure ArtifactSettings where
  blurRadius : ℚ
  denoiseStrength : ℚ
  sharpenSigma : ℚ
  saturationReduction : ℚ
deriving DecidableEq, Repr

/-- The chained-conditional settings selection inside
`applyArtifactReduction` (thresholds large=3000000, medium=1000000,
small=500000). -/
def artifactSettingsOf (pixelCount : Nat) : ArtifactSettings :=
  if pixelCount > 3000000 then ⟨0.4, 0.15, 0.8, 0.85⟩
  else if pixelCount > 1000000 then ⟨0.35, 0.12, 0.6, 0.9⟩
  else if pixelCount > 500000 then ⟨0.3, 0.1, 0.5, 0.95⟩
  else ⟨0.3, 0.1, 0.5, 1.0⟩

/-- The filter chain `applyArtifactReduction` returns:
`.modulate({ saturation }).blur(blurRadius).sharpen(sharpenSigma).gamma()`.
It reads only three of the four destructured settings fields. -/
def applyFilters (inst : SharpInstance) (s : ArtifactSettings) : SharpInstance :=
  { inst with ops := inst.ops ++
      [Op.modulate s.saturationReduction, Op.blur s.blurRadius,
       Op.sharpenSigmaOnly s.sharpenSigma, Op.gamma] }

/-- `applyArtifactReduction(sharpInstance, pixelCount)` from compress.js. -/
def applyArtifactReduction (inst : SharpInstance) (pixelCount : Nat) : SharpInstance :=
  applyFilters inst (artifactSettingsOf pixelCount)

/-- The sharp metadata fields compress.js reads: `width`, `height`,
`pages` (absent for single-frame formats). -/
structure Metadata where
  width : Nat
  height : Nat
  pages : Option Nat
deriving DecidableEq, Repr

/-- The `req.params` fields compress.js reads. -/
structure ReqParams where
  webp : Bool
  grayscale : Bool
  originSize : Option Nat
  url : String
  quality : Nat
deriving DecidableEq, Repr

/-- `isAnimated = pages && pages > 1`. -/
def isAnimatedOf (pages : Option Nat) : Bool :=
  match pages with
  | some n => decide (n > 1)
  | none => false

/-- The `const format` line: avif when `req.params.webp` is set, else jpeg. -/
def initialFormat (webp : Bool) : OutputFormat :=
  if webp then OutputFormat.avif else OutputFormat.jpeg

/-- The `let outputFormat` line: webp when animated, else `format`. -/
def outputFormatOf (m : Metadata) (p : ReqParams) : OutputFormat :=
  if isAnimatedOf m.pages then OutputFormat.webp else initialFormat p.webp

/-- The option object of the first `.toFormat(outputFormat, {...})` call. -/
def initialFormatOpts (outputFormat : OutputFormat) (isAnimated : Bool)
    (quality : Nat) (a : AvifParams) : FormatOpts :=
  { quality := some quality
    alphaQuality := some 80
    smartSubsample := some true
    chromaSubsampling := some "4:2:0"
    tileRows := if outputFormat = OutputFormat.avif then some a.tileRows else none
    tileCols := if outputFormat = OutputFormat.avif then some a.tileCols else none
    minQuantizer := if outputFormat = OutputFormat.avif then some a.minQuantizer else none
    maxQuantizer := if outputFormat = OutputFormat.avif then some a.maxQuantizer else none
    effort := if outputFormat = OutputFormat.avif then some a.effort else none
    loop := if isAnimated then some 0 else none }

/-- The option object of the fallback `.toFormat(outputFormat, { quality })`
call: only `quality` is set. -/
def fallbackFormatOpts (quality : Nat) : FormatOpts :=
  { quality := some quality, alphaQuality := none, smartSubsample := none,
    chromaSubsampling := none, tileRows := none, tileCols := none,
    minQuantizer := none, maxQuantizer := none, effort := none, loop := none }

/-- The fallback format assignment: webp when animated, else jpeg. -/
def fallbackFormat (isAnimated : Bool) : OutputFormat :=
  if isAnimated then OutputFormat.webp else OutputFormat.jpeg

/-- The sharp pipeline `compress` builds before the first `.toBuffer` call,
following the source statement by statement: grayscale, then (for static
images) artifact reduction for jpeg/avif output and the fixed sharpen for
pixelCount > 500000, then the AVIF dimension clamp, then `.toFormat`. -/
def buildInstance (m : Metadata) (p : ReqParams) : SharpInstance :=
  let pixelCount := m.width * m.height
  let isAnimated := isAnimatedOf m.pages
  let outputFormat := outputFormatOf m p
  let avifParams := optimizeAvifParams m.width m.height
  let base : SharpInstance := { animated := isAnimated, ops := [], format := none }
  let withGray := if p.grayscale then { base with ops := base.ops ++ [Op.grayscale] } else base
  let withFilters :=
    if isAnimated = false then
      let afterArtifact :=
        if outputFormat = OutputFormat.jpeg ∨ outputFormat = OutputFormat.avif then
          applyArtifactReduction withGray pixelCount
        else withGray
      if pixelCount > 500000 then
        { afterArtifact with ops := afterArtifact.ops ++
            [Op.sharpenFull sharpenParams.sigma sharpenParams.flat sharpenParams.jagged] }
      else afterArtifact
    else withGray
  let withResize :=
    if outputFormat = OutputFormat.avif ∧
        (m.width > MAX_HEIF_DIMENSION ∨ m.height > MAX_HEIF_DIMENSION) then
      { withFilters with ops := withFilters.ops ++
          [Op.resize (min m.width MAX_HEIF_DIMENSION) (min m.height MAX_HEIF_DIMENSION)
            "inside"] }
    else withFilters
  { withResize with
    format := some (outputFormat, initialFormatOpts outputFormat isAnimated p.quality avifParams) }

/-- JavaScript `msg.includes(sub)`: `sub` occurs contiguously in `msg`. -/
def stringIncludes (msg sub : String) : Bool :=
  msg.data.tails.any (fun t => sub.data.isPrefixOf t)

/-- The substring the catch handler looks for in `heifError.message`. -/
def capacityMessage : String := "too large for the HEIF format"

/-- `heifError.message.includes("too large for the HEIF format")`. -/
def isCapacityError (msg : String) : Bool := stringIncludes msg capacityMessage

/-- Result of one `.toBuffer` call, as relevant to the control flow:
success with the encoded size, or failure with the error message. -/
inductive AttemptResult
  | ok (size : Nat)
  | err (msg : String)
deriving DecidableEq, Repr

/-- How `compress` ends: an image is sent via `sendImage`, or the request
is redirected to the origin by the outer catch handler. -/
inductive FinalOutcome
  | sent (format : OutputFormat) (size : Nat)
  | redirected
deriving DecidableEq, Repr

/-- What `compress` did: the pipelines handed to `.toBuffer`, in order,
and the final outcome. -/
structure Trace where
  attempts : List SharpInstance
  final : FinalOutcome
deriving DecidableEq, Repr

/-- The control flow of `compress(req, res, input)`, parameterised by the
results the encoder returns on the first and (if reached) second
`.toBuffer` call. The inner catch retries once, on the same pipeline with
only the format settings replaced, exactly when the first error message
contains the HEIF capacity substring; every other failure reaches the
outer catch, which redirects. -/
def compress (m : Metadata) (p : ReqParams) (first second : AttemptResult) : Trace :=
  let inst1 := buildInstance m p
  match first with
  | AttemptResult.ok size =>
      { attempts := [inst1], final := FinalOutcome.sent (outputFormatOf m p) size }
  | AttemptResult.err msg =>
      if isCapacityError msg then
        let fmt := fallbackFormat (isAnimatedOf m.pages)
        let inst2 := { inst1 with format := some (fmt, fallbackFormatOpts p.quality) }
        match second with
        | AttemptResult.ok size =>
            { attempts := [inst1, inst2], final := FinalOutcome.sent fmt size }
        | AttemptResult.err _ =>
            { attempts := [inst1, inst2], final := FinalOutcome.redirected }
      else { attempts := [inst1], final := FinalOutcome.redirected }

/-- The `x-bytes-saved` header computed in `sendImage`:
`Math.max((originSize || 0) - compressedSize, 0)`. -/
def bytesSaved (originSize : Option Nat) (compressedSize : Nat) : ℤ :=
  max ((originSize.getD 0 : ℤ) - (compressedSize : ℤ)) 0

/-- Modelled from the spec: the fit-inside resize semantics of the Image
Codec Library (the sharp fit mode named inside, implemented outside src/)
— shrink to fit within the bounding box, preserving aspect ratio, never
upscaling or cropping (spec glossary entry Fit inside). -/
def fitInside (width height boxWidth boxHeight : Nat) : Nat × Nat :=
  if width ≤ boxWidth ∧ height ≤ boxHeight then (width, height)
  else if width * boxHeight ≤ boxWidth * height then
    (width * boxHeight / height, boxHeight)
  else (boxWidth, height * boxWidth / width)

/-- First-match evaluation of an ordered threshold table, as the spec
describes the artifact-reduction planner ("evaluated from largest to
smallest, first match wins"). -/
def firstMatch (table : List (Nat × ArtifactSettings)) (fallback : ArtifactSettings)
    (pixelCount : Nat) : ArtifactSettings :=
  match table with
  | [] => fallback
  | (threshold, s) :: rest =>
      if pixelCount > threshold then s else firstMatch rest fallback pixelCount

/-- The artifact-reduction table as the spec lists it, thresholds largest first. -/
def specArtifactTable : List (Nat × ArtifactSettings) :=
  [(3000000, ⟨0.4, 0.15, 0.8, 0.85⟩),
   (1000000, ⟨0.35, 0.12, 0.6, 0.9⟩),
   (500000, ⟨0.3, 0.1, 0.5, 0.95⟩)]

/-- A concrete oversized static image (20000 × 10000, single frame). -/
def bigMeta : Metadata := ⟨20000, 10000, none⟩

/-- A concrete request asking for the modern format at quality 80. -/
def bigReq : ReqParams := ⟨true, false, some 1000, "http://example.com/a.png", 80⟩

/-- Default pipeline value used with `List.getD`. -/
def defaultInstance : SharpInstance := ⟨false, [], none⟩

/-- The operations queued by `buildInstance`, written as the concatenation
of the four conditional segments the source produces: grayscale, artifact
reduction, the fixed sharpen pass, and the AVIF dimension clamp. -/
theorem buildInstance_ops (m : Metadata) (p : ReqParams) :
    (buildInstance m p).ops =
      (if p.grayscale then [Op.grayscale] else []) ++
      ((if isAnimatedOf m.pages = false ∧
           (outputFormatOf m p = OutputFormat.jpeg ∨ outputFormatOf m p = OutputFormat.avif) then
          [Op.modulate (artifactSettingsOf (m.width * m.height)).saturationReduction,
           Op.blur (artifactSettingsOf (m.width * m.height)).blurRadius,
           Op.sharpenSigmaOnly (artifactSettingsOf (m.width * m.height)).sharpenSigma,
           Op.gamma]
        else []) ++
      ((if isAnimatedOf m.pages = false ∧ m.width * m.height > 500000 then
          [Op.sharpenFull 1.0 1.0 0.5] else []) ++
       (if outputFormatOf m p = OutputFormat.avif ∧
           (m.width > MAX_HEIF_DIMENSION ∨ m.height > MAX_HEIF_DIMENSION) then
          [Op.resize (min m.width MAX_HEIF_DIMENSION) (min m.height MAX_HEIF_DIMENSION) "inside"]
        else []))) := by
  simp only [buildInstance, applyArtifactReduction, applyFilters]
  by_cases hg : p.grayscale <;>
  by_cases ha : isAnimatedOf m.pages = false <;>
  by_cases hf : outputFormatOf m p = OutputFormat.jpeg ∨ outputFormatOf m p = OutputFormat.avif <;>
  by_cases hpc : m.width * m.height > 500000 <;>
  by_cases hr : outputFormatOf m p = OutputFormat.avif ∧
      (m.width > MAX_HEIF_DIMENSION ∨ m.height > MAX_HEIF_DIMENSION) <;>
  simp [hg, ha, hf, hpc, hr, sharpenParams]

/-- When the first encode succeeds, `compress` makes one attempt and sends
the image in the planned output format. -/
theorem compress_ok (m : Metadata) (p : ReqParams) (size : Nat) (second : AttemptResult) :
    compress m p (AttemptResult.ok size) second =
      { attempts := [buildInstance m p],
        final := FinalOutcome.sent (outputFormatOf m p) size } := rfl

/-- When the first encode fails with a capacity message, `compress` makes a
second attempt on the same pipeline with only the format settings replaced
by the fallback format and quality-only options. -/
theorem compress_capacity (m : Metadata) (p : ReqParams) (msg : String)
    (second : AttemptResult) (hc : isCapacityError msg = true) :
    compress m p (AttemptResult.err msg) second =
      { attempts := [buildInstance m p,
          { buildInstance m p with
            format := some (fallbackFormat (isAnimatedOf m.pages), fallbackFormatOpts p.quality) }],
        final := match second with
          | AttemptResult.ok size => FinalOutcome.sent (fallbackFormat (isAnimatedOf m.pages)) size
          | AttemptResult.err _ => FinalOutcome.redirected } := by
  cases second <;> simp [compress, hc]

/-- When the first encode fails with any other message, `compress` makes no
second attempt and redirects. -/
theorem compress_noncapacity (m : Metadata) (p : ReqParams) (msg : String)
    (second : AttemptResult) (hc : isCapacityError msg = false) :
    compress m p (AttemptResult.err msg) second =
      { attempts := [buildInstance m p], final := FinalOutcome.redirected } := by
  cases second <;> simp [compress, hc]

/-- The concrete pipeline built for the oversized static request: artifact
reduction at the large tier, the fixed sharpen pass, and the dimension
clamp are all queued. -/
theorem buildInstance_big_ops : (buildInstance bigMeta bigReq).ops =
    [Op.modulate 0.85, Op.blur 0.4, Op.sharpenSigmaOnly 0.8, Op.gamma,
     Op.sharpenFull 1.0 1.0 0.5, Op.resize 16384 10000 "inside"] := by
  rw [buildInstance_ops]
  norm_num [bigMeta, bigReq, isAnimatedOf, outputFormatOf, initialFormat,
    artifactSettingsOf, MAX_HEIF_DIMENSION]

/-- Claim C1, counterexample: for the 20000 × 10000 static modern-format
request whose first encode fails with the HEIF capacity message, the
fallback attempt (the second pipeline handed to the encoder) still
contains the fixed sharpen pass and the artifact-reduction blur, so the
claim that the artifact-reduction filters and the fixed sharpen pass are
dropped from the fallback encode is false. -/
theorem C1_counterexample_filters_retained :
    isCapacityError capacityMessage = true ∧
    (compress bigMeta bigReq (AttemptResult.err capacityMessage)
        (AttemptResult.ok 1)).attempts.length = 2 ∧
    Op.sharpenFull 1.0 1.0 0.5 ∈
      ((compress bigMeta bigReq (AttemptResult.err capacityMessage)
          (AttemptResult.ok 1)).attempts.getD 1 defaultInstance).ops ∧
    Op.blur 0.4 ∈
      ((compress bigMeta bigReq (AttemptResult.err capacityMessage)
          (AttemptResult.ok 1)).attempts.getD 1 defaultInstance).ops := by
  have hc : isCapacityError capacityMessage = true := by decide
  rw [compress_capacity _ _ _ _ hc]
  refine ⟨hc, rfl, ?_, ?_⟩ <;> simp [List.getD, buildInstance_big_ops]

/-- Claim C1, amended: when the first encode attempt fails with a capacity
error, the fallback attempt encodes with output format WEBP if the image
is animated, else JPEG, and its format options retain only the quality
setting (all AVIF-specific tuning options are absent); however the
fallback reuses the already-built pipeline, so the queued operations —
including any artifact-reduction filters and fixed sharpen pass — are
retained unchanged rather than dropped. -/
theorem C1_fallback_format_and_options (m : Metadata) (p : ReqParams) (msg : String)
    (second : AttemptResult) (hc : isCapacityError msg = true) :
    (compress m p (AttemptResult.err msg) second).attempts.length = 2 ∧
    (compress m p (AttemptResult.err msg) second).attempts.getD 0 defaultInstance =
      buildInstance m p ∧
    ((compress m p (AttemptResult.err msg) second).attempts.getD 1 defaultInstance).format =
      some (fallbackFormat (isAnimatedOf m.pages), fallbackFormatOpts p.quality) ∧
    ((compress m p (AttemptResult.err msg) second).attempts.getD 1 defaultInstance).ops =
      (buildInstance m p).ops ∧
    ((compress m p (AttemptResult.err msg) second).attempts.getD 1 defaultInstance).animated =
      (buildInstance m p).animated := by
  rw [compress_capacity m p msg second hc]
  simp [List.getD]

/-- Witness for C1: the amended statement instantiated at the concrete
oversized request with a capacity error on the first attempt. -/
theorem C1_fallback_format_and_options_witness :
    isCapacityError capacityMessage = true ∧
    ((compress bigMeta bigReq (AttemptResult.err capacityMessage)
        (AttemptResult.ok 1)).attempts.length = 2 ∧
     (compress bigMeta bigReq (AttemptResult.err capacityMessage)
        (AttemptResult.ok 1)).attempts.getD 0 defaultInstance = buildInstance bigMeta bigReq ∧
     ((compress bigMeta bigReq (AttemptResult.err capacityMessage)
        (AttemptResult.ok 1)).attempts.getD 1 defaultInstance).format =
       some (fallbackFormat (isAnimatedOf bigMeta.pages), fallbackFormatOpts bigReq.quality) ∧
     ((compress bigMeta bigReq (AttemptResult.err capacityMessage)
        (AttemptResult.ok 1)).attempts.getD 1 defaultInstance).ops =
       (buildInstance bigMeta bigReq).ops ∧
     ((compress bigMeta bigReq (AttemptResult.err capacityMessage)
        (AttemptResult.ok 1)).attempts.getD 1 defaultInstance).animated =
       (buildInstance bigMeta bigReq).animated) :=
  ⟨by decide, C1_fallback_format_and_options bigMeta bigReq capacityMessage
    (AttemptResult.ok 1) (by decide)⟩

/-- Claim C2: for every request at most two encode attempts occur; a
capacity error on the first attempt yields exactly two attempts; any
non-capacity failure on the first attempt yields a single attempt and a
redirect; and any failure on the fallback attempt ends in a redirect with
no further retry. -/
theorem C2_at_most_two_attempts (m : Metadata) (p : ReqParams) (first second : AttemptResult) :
    (compress m p first second).attempts.length ≤ 2 ∧
    (∀ msg, first = AttemptResult.err msg → isCapacityError msg = true →
      (compress m p first second).attempts.length = 2) ∧
    (∀ msg, first = AttemptResult.err msg → isCapacityError msg = false →
      (compress m p first second).attempts.length = 1 ∧
      (compress m p first second).final = FinalOutcome.redirected) ∧
    (∀ msg msg2, first = AttemptResult.err msg → isCapacityError msg = true →
      second = AttemptResult.err msg2 →
      (compress m p first second).final = FinalOutcome.redirected) := by
  cases first with
  | ok size => simp [compress_ok]
  | err msg =>
    by_cases hc : isCapacityError msg = true
    · rw [compress_capacity m p msg second hc]
      refine ⟨by simp, by simp, ?_, ?_⟩
      · intro msg2 hinj hfalse
        rw [AttemptResult.err.injEq] at hinj
        subst hinj
        rw [hc] at hfalse
        cases hfalse
      · intro msg1 msg2 hinj h1 h2
        subst h2
        simp
    · have hc2 : isCapacityError msg = false := by
        cases h : isCapacityError msg
        · rfl
        · exact absurd h hc
      rw [compress_noncapacity m p msg second hc2]
      refine ⟨by simp, ?_, by simp, ?_⟩
      · intro msg2 hinj htrue
        rw [AttemptResult.err.injEq] at hinj
        subst hinj
        rw [hc2] at htrue
        cases htrue
      · intro msg1 msg2 hinj h1 h2
        rfl

/-- Witness for C2: with a capacity error and then a second failure the
request is redirected, and with a non-capacity first failure only one
attempt is made. -/
theorem C2_at_most_two_attempts_witness :
    (compress bigMeta bigReq (AttemptResult.err capacityMessage)
        (AttemptResult.err "boom")).final = FinalOutcome.redirected ∧
    (compress bigMeta bigReq (AttemptResult.err "boom")
        (AttemptResult.ok 1)).attempts.length = 1 :=
  ⟨(C2_at_most_two_attempts bigMeta bigReq (AttemptResult.err capacityMessage)
      (AttemptResult.err "boom")).2.2.2 capacityMessage "boom" rfl (by decide) rfl,
   ((C2_at_most_two_attempts bigMeta bigReq (AttemptResult.err "boom")
      (AttemptResult.ok 1)).2.2.1 "boom" rfl (by decide)).1⟩

/-- Claim C3: the selected output format is WEBP whenever the image is
animated (pages > 1), regardless of the requested modern format; for
static images it is AVIF when the modern format is requested and JPEG
otherwise. -/
theorem C3_format_selection (m : Metadata) (p : ReqParams) :
    (∀ n, m.pages = some n → n > 1 → outputFormatOf m p = OutputFormat.webp) ∧
    (isAnimatedOf m.pages = false → p.webp = true → outputFormatOf m p = OutputFormat.avif) ∧
    (isAnimatedOf m.pages = false → p.webp = false → outputFormatOf m p = OutputFormat.jpeg) := by
  refine ⟨?_, ?_, ?_⟩
  · intro n hn h1
    simp [outputFormatOf, isAnimatedOf, hn, h1]
  · intro hs hw
    simp [outputFormatOf, initialFormat, hs, hw]
  · intro hs hw
    simp [outputFormatOf, initialFormat, hs, hw]

/-- Witness for C3: a three-frame image is encoded as WEBP even with the
modern format not requested, a single-frame image as AVIF when requested,
and as JPEG otherwise. -/
theorem C3_format_selection_witness :
    outputFormatOf ⟨100, 100, some 3⟩ ⟨false, false, none, "u", 80⟩ = OutputFormat.webp ∧
    outputFormatOf ⟨100, 100, some 1⟩ ⟨true, false, none, "u", 80⟩ = OutputFormat.avif ∧
    outputFormatOf ⟨100, 100, none⟩ ⟨false, false, none, "u", 80⟩ = OutputFormat.jpeg :=
  ⟨(C3_format_selection ⟨100, 100, some 3⟩ ⟨false, false, none, "u", 80⟩).1 3 rfl (by decide),
   (C3_format_selection ⟨100, 100, some 1⟩ ⟨true, false, none, "u", 80⟩).2.1 (by decide) rfl,
   (C3_format_selection ⟨100, 100, none⟩ ⟨false, false, none, "u", 80⟩).2.2 (by decide) rfl⟩

/-- Claim C4, counterexample: after a capacity error on the oversized
20000 × 10000 request, the fallback plan has JPEG output format yet still
carries the resize operation queued for the AVIF attempt, so the claim
that for every plan (initial or fallback) a resize is present only with
AVIF output — and never applied for JPEG or WEBP output — is false. -/
theorem C4_counterexample_resize_in_jpeg_fallback :
    isCapacityError capacityMessage = true ∧
    ((compress bigMeta bigReq (AttemptResult.err capacityMessage)
        (AttemptResult.ok 1)).attempts.getD 1 defaultInstance).format.map Prod.fst =
      some OutputFormat.jpeg ∧
    Op.resize 16384 10000 "inside" ∈
      ((compress bigMeta bigReq (AttemptResult.err capacityMessage)
          (AttemptResult.ok 1)).attempts.getD 1 defaultInstance).ops := by
  have hc : isCapacityError capacityMessage = true := by decide
  rw [compress_capacity _ _ _ _ hc]
  refine ⟨hc, ?_, ?_⟩
  · simp [List.getD, fallbackFormat, isAnimatedOf, bigMeta]
  · simp [List.getD, buildInstance_big_ops]

/-- Claim C4, amended: in the initial plan a resize operation is present
exactly when the output format is AVIF and a side exceeds 16384, and it is
the bounding box min(width, 16384) × min(height, 16384) with fit mode
inside (for 20000 × 10000 the fit-inside result is 16384 × 8192); a
fallback plan, however, reuses the initial pipeline unchanged, so it
retains that resize operation even though its own output format is JPEG or
WEBP. -/
theorem C4_resize_rule (m : Metadata) (p : ReqParams) :
    (∀ w h fit, Op.resize w h fit ∈ (buildInstance m p).ops ↔
      (outputFormatOf m p = OutputFormat.avif ∧
       (m.width > MAX_HEIF_DIMENSION ∨ m.height > MAX_HEIF_DIMENSION) ∧
       w = min m.width MAX_HEIF_DIMENSION ∧ h = min m.height MAX_HEIF_DIMENSION ∧
       fit = "inside")) ∧
    (∀ msg second, isCapacityError msg = true →
      ((compress m p (AttemptResult.err msg) second).attempts.getD 1 defaultInstance).ops =
        (buildInstance m p).ops) ∧
    fitInside 20000 10000 (min 20000 MAX_HEIF_DIMENSION) (min 10000 MAX_HEIF_DIMENSION) =
      (16384, 8192) := by
  refine ⟨?_, ?_, by decide⟩
  · intro w h fit
    rw [buildInstance_ops]
    by_cases hg : p.grayscale <;>
    by_cases ha : isAnimatedOf m.pages = false <;>
    by_cases hf : outputFormatOf m p = OutputFormat.jpeg ∨
        outputFormatOf m p = OutputFormat.avif <;>
    by_cases hpc : m.width * m.height > 500000 <;>
    by_cases hr : outputFormatOf m p = OutputFormat.avif ∧
        (m.width > MAX_HEIF_DIMENSION ∨ m.height > MAX_HEIF_DIMENSION) <;>
    simp [hg, ha, hf, hpc, hr] <;> tauto
  · intro msg second hc
    rw [compress_capacity m p msg second hc]
    simp [List.getD]

/-- Witness for C4: the oversized request receives the clamped resize in
its initial plan, and after a capacity error the fallback retains the
initial operations. -/
theorem C4_resize_rule_witness :
    Op.resize 16384 10000 "inside" ∈ (buildInstance bigMeta bigReq).ops ∧
    isCapacityError capacityMessage = true ∧
    ((compress bigMeta bigReq (AttemptResult.err capacityMessage)
        (AttemptResult.ok 1)).attempts.getD 1 defaultInstance).ops =
      (buildInstance bigMeta bigReq).ops :=
  ⟨((C4_resize_rule bigMeta bigReq).1 16384 10000 "inside").mpr
     ⟨rfl, Or.inl (by decide), by decide, by decide, rfl⟩,
   by decide,
   (C4_resize_rule bigMeta bigReq).2.1 capacityMessage (AttemptResult.ok 1) (by decide)⟩

/-- Claim C5: the artifact-reduction tier equals first-match evaluation of
the ordered threshold table 3000000 / 1000000 / 500000, and the table rows
are exactly as specified: 4000000 pixels give the large tier (blur 0.4,
sharpen 0.8, saturation 0.85), 800000 pixels give the small tier (blur
0.3, sharpen 0.5, saturation 0.95), and any pixel count at most 500000
gives saturation 1.0 with blur 0.3 still applied. -/
theorem C5_artifact_tier_table :
    (∀ pixelCount, artifactSettingsOf pixelCount =
        firstMatch specArtifactTable ⟨0.3, 0.1, 0.5, 1.0⟩ pixelCount) ∧
    artifactSettingsOf 4000000 = ⟨0.4, 0.15, 0.8, 0.85⟩ ∧
    artifactSettingsOf 800000 = ⟨0.3, 0.1, 0.5, 0.95⟩ ∧
    (∀ pixelCount, pixelCount ≤ 500000 →
      (artifactSettingsOf pixelCount).saturationReduction = 1.0 ∧
      (artifactSettingsOf pixelCount).blurRadius = 0.3) := by
  refine ⟨fun pc => rfl, by norm_num [artifactSettingsOf],
    by norm_num [artifactSettingsOf], ?_⟩
  intro pc hpc
  have h3 : ¬ pc > 3000000 := by omega
  have h1 : ¬ pc > 1000000 := by omega
  have h5 : ¬ pc > 500000 := by omega
  simp [artifactSettingsOf, h3, h1, h5]

/-- Witness for C5: 300000 pixels fall in the lowest tier, keeping full
saturation while the mild blur is still applied. -/
theorem C5_artifact_tier_table_witness :
    300000 ≤ 500000 ∧
    ((artifactSettingsOf 300000).saturationReduction = 1.0 ∧
     (artifactSettingsOf 300000).blurRadius = 0.3) :=
  ⟨by decide, C5_artifact_tier_table.2.2.2 300000 (by decide)⟩

/-- Claim C6: the AVIF tuning parameters are selected by comparing the
larger of width and height against 2000 and then 1000, first match
winning, with exactly the tuples of the table; in particular 5000 × 3000,
1500 × 900 and 640 × 480 give the large, medium and small tiers. -/
theorem C6_avif_tier_table :
    (∀ width height, optimizeAvifParams width height =
      (if max width height > 2000 then ⟨4, 4, 30, 50, 3⟩
       else if max width height > 1000 then ⟨2, 2, 28, 48, 4⟩
       else ⟨1, 1, 26, 48, 4⟩)) ∧
    optimizeAvifParams 5000 3000 = ⟨4, 4, 30, 50, 3⟩ ∧
    optimizeAvifParams 1500 900 = ⟨2, 2, 28, 48, 4⟩ ∧
    optimizeAvifParams 640 480 = ⟨1, 1, 26, 48, 4⟩ := by
  refine ⟨?_, by decide, by decide, by decide⟩
  intro w h
  by_cases hL : 2000 < w ∨ 2000 < h
  · have hm : 2000 < max w h := by omega
    simp [optimizeAvifParams, hL, hm]
  · by_cases hM : 1000 < w ∨ 1000 < h
    · have hm2 : ¬ 2000 < max w h := by omega
      have hm1 : 1000 < max w h := by omega
      simp [optimizeAvifParams, hL, hM, hm1, hm2]
    · have hm2 : ¬ 2000 < max w h := by omega
      have hm1 : ¬ 1000 < max w h := by omega
      simp [optimizeAvifParams, hL, hM, hm1, hm2]

/-- Claim C7: the fixed secondary sharpen pass (sigma 1.0, flat 1.0,
jagged 0.5) is queued in the pipeline exactly when the image is static and
its pixel count exceeds 500000, with no dependence on the selected output
format. -/
theorem C7_fixed_sharpen_iff (m : Metadata) (p : ReqParams) :
    Op.sharpenFull 1.0 1.0 0.5 ∈ (buildInstance m p).ops ↔
      (isAnimatedOf m.pages = false ∧ m.width * m.height > 500000) := by
  rw [buildInstance_ops]
  by_cases hg : p.grayscale <;>
  by_cases ha : isAnimatedOf m.pages = false <;>
  by_cases hf : outputFormatOf m p = OutputFormat.jpeg ∨
      outputFormatOf m p = OutputFormat.avif <;>
  by_cases hpc : m.width * m.height > 500000 <;>
  by_cases hr : outputFormatOf m p = OutputFormat.avif ∧
      (m.width > MAX_HEIF_DIMENSION ∨ m.height > MAX_HEIF_DIMENSION) <;>
  simp [hg, ha, hf, hpc, hr]

/-- Witness for C7: the oversized static request receives the fixed
sharpen pass. -/
theorem C7_fixed_sharpen_iff_witness :
    Op.sharpenFull 1.0 1.0 0.5 ∈ (buildInstance bigMeta bigReq).ops :=
  (C7_fixed_sharpen_iff bigMeta bigReq).mpr ⟨rfl, by decide⟩

/-- Claim C8: the emitted bytes-saved header value is never negative, and
an origin size of 1000 with an encoded size of 1500 yields 0. -/
theorem C8_bytes_saved_nonneg :
    (∀ originSize compressedSize, 0 ≤ bytesSaved originSize compressedSize) ∧
    bytesSaved (some 1000) 1500 = 0 := by
  constructor
  · intro o s
    exact le_max_right _ _
  · norm_num [bytesSaved]

/-- Claim C9: the planning functions are deterministic — identical
metadata and request parameters yield identical pipelines, AVIF tuning and
artifact tiers. -/
theorem C9_planner_deterministic (m m' : Metadata) (p p' : ReqParams)
    (hm : m = m') (hp : p = p') :
    buildInstance m p = buildInstance m' p' ∧
    optimizeAvifParams m.width m.height = optimizeAvifParams m'.width m'.height ∧
    artifactSettingsOf (m.width * m.height) = artifactSettingsOf (m'.width * m'.height) := by
  subst hm
  subst hp
  exact ⟨rfl, rfl, rfl⟩

/-- Witness for C9: determinism instantiated at the concrete oversized
request. -/
theorem C9_planner_deterministic_witness :
    bigMeta = bigMeta ∧ bigReq = bigReq ∧
    (buildInstance bigMeta bigReq = buildInstance bigMeta bigReq ∧
     optimizeAvifParams bigMeta.width bigMeta.height =
       optimizeAvifParams bigMeta.width bigMeta.height ∧
     artifactSettingsOf (bigMeta.width * bigMeta.height) =
       artifactSettingsOf (bigMeta.width * bigMeta.height)) :=
  ⟨rfl, rfl, C9_planner_deterministic bigMeta bigMeta bigReq bigReq rfl rfl⟩

/-- Claim C10: the artifact-reduction stage queues exactly saturation
modulation, blur, sharpen and a gamma adjustment; the denoiseStrength
field of the selected tier is never passed to any filter, so two tier
settings differing only in denoiseStrength produce identical pipelines. -/
theorem C10_denoise_noninterference :
    (∀ inst pixelCount, applyArtifactReduction inst pixelCount =
        applyFilters inst (artifactSettingsOf pixelCount)) ∧
    (∀ inst s, (applyFilters inst s).ops = inst.ops ++
        [Op.modulate s.saturationReduction, Op.blur s.blurRadius,
         Op.sharpenSigmaOnly s.sharpenSigma, Op.gamma] ∧
      (applyFilters inst s).animated = inst.animated ∧
      (applyFilters inst s).format = inst.format) ∧
    (∀ inst s s', s.blurRadius = s'.blurRadius → s.sharpenSigma = s'.sharpenSigma →
        s.saturationReduction = s'.saturationReduction →
        applyFilters inst s = applyFilters inst s') := by
  refine ⟨fun inst pc => rfl, fun inst s => ⟨rfl, rfl, rfl⟩, ?_⟩
  intro inst s s' hb hs hsat
  simp [applyFilters, hb, hs, hsat]

/-- Witness for C10: two settings rows that differ only in denoiseStrength
(0.1 versus 0.99) yield the same pipeline. -/
theorem C10_denoise_noninterference_witness :
    applyFilters defaultInstance ⟨0.3, 0.1, 0.5, 1.0⟩ =
      applyFilters defaultInstance ⟨0.3, 0.99, 0.5, 1.0⟩ :=
  C10_denoise_noninterference.2.2 defaultInstance ⟨0.3, 0.1, 0.5, 1.0⟩
    ⟨0.3, 0.99, 0.5, 1.0⟩ rfl rfl rfl
